import Mathlib

/-
Verification of the UDP wrapper (src/src/udp_wrap.cc) of node-httpp.

The file shallowly embeds the wrapper's control flow.  The underlying
socket primitives (uv_udp_*) and the slab allocator live elsewhere in the
repository (deps/uv, src/slab_allocator.cc — not under src/ here), so their
results are either opaque inputs to the embedded wrapper functions or, where
a claim is about their guaranteed behaviour, small models written from the
spec (each such definition is marked "Modelled from the spec").

C assert(...) failures abort the process; an embedded function whose source
contains asserts returns an Option, with none meaning the process aborted.
Side effects (SetErrno, MakeCallback, delete of a request wrap, slab Shrink)
are recorded as an explicit event trace.
-/

namespace UdpWrap

/-- Address families accepted by the bind/send entry points (AF_INET and
AF_INET6 in udp_wrap.cc; any other family hits assert(0) + abort). -/
inductive Family
  | ipv4
  | ipv6
  deriving DecidableEq

/-- Error codes of the socket-primitive layer, as far as the wrapper
distinguishes them: UV_EALREADY is tested by name in RecvStart (line 298);
a rejected re-bind is the spec's "bind conflict"; everything else is opaque. -/
inductive UvErr
  | ok
  | already
  | bindConflict
  | other (n : Int)
  deriving DecidableEq

/-- Arguments handed to a JavaScript callback (the argv arrays built in
OnSend and OnRecv).  References to V8 objects are modelled as numeric
identities: two arguments are the same object iff the identities agree. -/
inductive JsArg
  | int (i : Int)
  | nat (n : Nat)
  | sockRef (id : Nat)
  | reqRef (id : Nat)
  | buffer (id : Nat)
  | addr (a : Nat)
  deriving DecidableEq

/-- Observable side effects of the wrapper, in program order. -/
inductive Ev
  | setErrno
  | notifySend (args : List JsArg)
  | notifyRecv (args : List JsArg)
  | shrink (base : Nat) (size : Nat)
  | deleteReq (id : Nat)
  deriving DecidableEq

/-- A SendWrap (ReqWrap of uv_udp_send_t, line 54): its object identity and
the buffer stored under the hidden key buffer_sym (line 246). -/
structure SendWrap where
  id : Nat
  hiddenBuffer : Nat
  deriving DecidableEq

/-- State of one UDP socket as far as the embedded claims need it: the
family it is bound to (none while unbound) and the receive-armed flag. -/
structure SockState where
  boundFamily : Option Family
  recvArmed : Bool
  deriving DecidableEq

def isNotifySend : Ev → Bool
  | Ev.notifySend _ => true
  | _ => false

def isNotifyRecv : Ev → Bool
  | Ev.notifyRecv _ => true
  | _ => false

def isShrink : Ev → Bool
  | Ev.shrink _ _ => true
  | _ => false

def isSetErrno : Ev → Bool
  | Ev.setErrno => true
  | _ => false

def isDeleteReqFor (id : Nat) : Ev → Bool
  | Ev.deleteReq j => j == id
  | _ => false

/-- Send-completion notifications whose payload argument (argv[3] in OnSend,
line 363) is the given buffer object. -/
def isSendCompletionFor (payload : Nat) : Ev → Bool
  | Ev.notifySend args => args[3]? == some (JsArg.buffer payload)
  | _ => false

/-- Number of send-completion notifications in a trace that reference the
given payload buffer. -/
def sendCompletions (payload : Nat) (t : List Ev) : Nat :=
  t.countP (isSendCompletionFor payload)

/-- True when some event satisfying p occurs strictly before some event
satisfying q in the trace. -/
def firstThen (p q : Ev → Bool) : List Ev → Bool
  | [] => false
  | e :: rest => if p e then rest.any q else firstThen p q rest

/-- UDPWrap::OnSend (lines 344-368): when status is nonzero SetErrno runs
first; then oncomplete is invoked once with argv =
(status, socket, request, hidden buffer); then the SendWrap is deleted. -/
def OnSend (status : Int) (sock : Nat) (req : SendWrap) : List Ev :=
  (if status ≠ 0 then [Ev.setErrno] else []) ++
  [Ev.notifySend [JsArg.int status, JsArg.sockRef sock,
                  JsArg.reqRef req.id, JsArg.buffer req.hiddenBuffer],
   Ev.deleteReq req.id]

/-- Synchronous outcome of UDPWrap::DoSend: the value returned to JS
(some id = the request wrap object, none = Null()), whether SetErrno ran,
and whether the SendWrap was deleted before returning. -/
structure SendOut where
  ret : Option Nat
  errnoSet : Bool
  reqDestroyedSync : Bool
  deriving DecidableEq

/-- UDPWrap::DoSend (lines 228-278).  bufLen is Buffer::Length(buffer_obj);
r is the result of uv_udp_send / uv_udp_send6 for this dispatch.  The
asserts at lines 242-243 abort the process when the offset/length
constraints fail: modelled as the none result.  Otherwise a SendWrap is
created with the payload stored under buffer_sym (lines 245-246), and on
nonzero r SetErrno runs, the wrap is deleted and Null() is returned
(lines 270-274); on r = 0 the wrap object is returned (line 276). -/
def DoSend (bufLen offset length payload reqId : Nat) (r : Int) :
    Option (SendOut × SendWrap) :=
  if offset < bufLen ∧ length ≤ bufLen - offset then
    let req : SendWrap := { id := reqId, hiddenBuffer := payload }
    if r ≠ 0 then
      some ({ ret := none, errnoSet := true, reqDestroyedSync := true }, req)
    else
      some ({ ret := some reqId, errnoSet := false, reqDestroyedSync := false }, req)
  else
    none

/-- Modelled from the spec: the completion contract of the dispatch
primitive uv_udp_send / uv_udp_send6 (deps/uv, not under src/).  When
dispatch returns 0 the loop eventually invokes the OnSend callback exactly
once with the transmission status; when dispatch returns nonzero the
callback is never invoked. -/
def sendAsyncTrace (r status : Int) (sock : Nat) (req : SendWrap) : List Ev :=
  if r = 0 then OnSend status sock req else []

/-- One whole send interaction: the synchronous DoSend outcome together
with the trace of asynchronous events that follow it. -/
structure SendSession where
  ret : Option Nat
  errnoSet : Bool
  reqDestroyedSync : Bool
  trace : List Ev
  deriving DecidableEq

/-- DoSend composed with the asynchronous completion contract. -/
def sendSession (bufLen offset length payload reqId sock : Nat)
    (r status : Int) : Option SendSession :=
  match DoSend bufLen offset length payload reqId r with
  | none => none
  | some (o, req) =>
    some { ret := o.ret, errnoSet := o.errnoSet,
           reqDestroyedSync := o.reqDestroyedSync,
           trace := sendAsyncTrace r status sock req }

/-- Modelled from the spec: uv_udp_bind / uv_udp_bind6 (deps/uv, not under
src/).  "Address family is immutable once a bind succeeds; a second bind
with a different family is rejected" with a bind-conflict error and the
original binding left intact; an unbound socket binds successfully; a
re-bind with the same family is likewise rejected (already bound), state
unchanged. -/
def uv_udp_bind (s : SockState) (fam : Family) : SockState × Int × UvErr :=
  match s.boundFamily with
  | none => ({ s with boundFamily := some fam }, 0, UvErr.ok)
  | some f =>
    if f = fam then (s, -1, UvErr.already)
    else (s, -1, UvErr.bindConflict)

/-- Result of UDPWrap::DoBind as seen by the caller: the socket state
afterwards, the integer returned to JS, and the process-wide last error
(none when SetErrno did not run). -/
structure BindOut where
  state : SockState
  ret : Int
  lastError : Option UvErr
  deriving DecidableEq

/-- UDPWrap::DoBind (lines 132-161): calls the bind primitive for the
family, and on nonzero result runs SetErrno with the primitive's error
before returning the result. -/
def DoBind (s : SockState) (fam : Family) : BindOut :=
  let u := uv_udp_bind s fam
  { state := u.1, ret := u.2.1,
    lastError := if u.2.1 ≠ 0 then some u.2.2 else none }

/-- The common body of the X macro (lines 174-190) generating SetTTL,
SetBroadcast, SetMulticastTTL and SetMulticastLoopback: returns the
primitive's result r and runs SetErrno iff r is nonzero.  The pair is
(value returned to JS, whether SetErrno ran). -/
def SetTTL (flag r : Int) : Int × Bool := (r, decide (r ≠ 0))

/-- See SetTTL: instance of the X macro for uv_udp_set_broadcast. -/
def SetBroadcast (flag r : Int) : Int × Bool := (r, decide (r ≠ 0))

/-- See SetTTL: instance of the X macro for uv_udp_set_multicast_ttl. -/
def SetMulticastTTL (flag r : Int) : Int × Bool := (r, decide (r ≠ 0))

/-- See SetTTL: instance of the X macro for uv_udp_set_multicast_loop. -/
def SetMulticastLoopback (flag r : Int) : Int × Bool := (r, decide (r ≠ 0))

/-- A JavaScript value as far as SetMembership inspects it (line 204):
undefined, null, or a string. -/
inductive JsVal
  | undefined
  | null
  | str (s : String)
  deriving DecidableEq

/-- The iface_cstr computation of SetMembership (lines 203-206): the
UTF-8 contents of the argument, overridden to NULL (none) when the
argument is undefined or null. -/
def ifaceArg : JsVal → Option String
  | JsVal.undefined => none
  | JsVal.null => none
  | JsVal.str s => some s

/-- Multicast membership direction (UV_JOIN_GROUP / UV_LEAVE_GROUP). -/
inductive Membership
  | join
  | leave
  deriving DecidableEq

/-- Arguments the wrapper passes to uv_udp_set_membership (lines 208-209). -/
structure MembershipCall where
  address : String
  iface : Option String
  membership : Membership
  deriving DecidableEq

/-- UDPWrap::SetMembership (lines 193-215): builds the primitive call with
iface_cstr as above; r is the primitive's result; SetErrno runs iff r is
nonzero.  Returns (primitive call made, value returned to JS, SetErrno?). -/
def SetMembership (address : String) (iface : JsVal) (m : Membership)
    (r : Int) : MembershipCall × Int × Bool :=
  ({ address := address, iface := ifaceArg iface, membership := m }, r,
   decide (r ≠ 0))

/-- UDPWrap::AddMembership (lines 218-220). -/
def AddMembership (address : String) (iface : JsVal) (r : Int) :
    MembershipCall × Int × Bool :=
  SetMembership address iface Membership.join r

/-- UDPWrap::DropMembership (lines 223-225). -/
def DropMembership (address : String) (iface : JsVal) (r : Int) :
    MembershipCall × Int × Bool :=
  SetMembership address iface Membership.leave r

/-- Modelled from the spec: uv_udp_recv_start (deps/uv, not under src/).
Arming an already armed socket fails with UV_EALREADY and changes nothing
(the source comment at line 296 relies on exactly this); arming an unarmed
socket succeeds. -/
def uv_udp_recv_start (s : SockState) : SockState × Int × UvErr :=
  if s.recvArmed then (s, -1, UvErr.already)
  else ({ s with recvArmed := true }, 0, UvErr.ok)

/-- The decision RecvStart makes from the primitive's result (lines
298-303): on a failure other than UV_EALREADY it runs SetErrno and returns
False, otherwise it returns True without touching the last error.  The
pair is (value returned to JS, whether SetErrno ran). -/
def recvStartResult (r : Int) (code : UvErr) : Bool × Bool :=
  if r ≠ 0 ∧ code ≠ UvErr.already then (false, true) else (true, false)

/-- UDPWrap::RecvStart (lines 291-304) over the modelled primitive. -/
def RecvStart (s : SockState) : SockState × Bool × Bool :=
  let u := uv_udp_recv_start s
  (u.1, recvStartResult u.2.1 u.2.2)

/-- UDPWrap::RecvStop (lines 307-315): returns the primitive's result r to
JS directly; no SetErrno call appears in its body, so the second component
(whether SetErrno ran) is always false. -/
def RecvStop (r : Int) : Int × Bool := (r, false)

/-- UDPWrap::GetSockName (lines 318-340): on nonzero primitive result runs
SetErrno and returns Null (none); on success returns the decoded address.
The pair is (value returned to JS, whether SetErrno ran). -/
def GetSockName (r : Int) (addr : Nat) : Option Nat × Bool :=
  if r ≠ 0 then (none, true) else (some addr, false)

/-- A uv_buf_t: base pointer (an address, modelled as Nat) and length. -/
structure UvBuf where
  base : Nat
  len : Nat
  deriving DecidableEq

/-- UDPWrap::OnAlloc (lines 371-375): wraps the pointer p returned by
slab_allocator->Allocate (slab_allocator.cc, not under src/; p is the
start address of the region handed out, an input here) into a uv_buf_t of
the suggested size. -/
def OnAlloc (p suggested : Nat) : UvBuf :=
  { base := p, len := suggested }

/-- UDPWrap::OnRecv (lines 378-410).  slabData is Buffer::Data(slab), the
start address of the parent slab buffer returned by Shrink; addr is the
decoded peer address.  The trace: Shrink first, on the region's base, to 0
bytes when nread < 0 and to nread bytes otherwise (lines 386-388); then
nothing more when nread = 0 (line 389); then SetErrno and a one-argument
onmessage callback when nread < 0 (lines 391-396); otherwise the
five-argument onmessage callback (socket, slab, byte offset of the region
in the slab, nread, peer address) (lines 398-409). -/
def OnRecv (sock : Nat) (nread : Int) (buf : UvBuf) (slabData : Nat)
    (addr : Nat) : List Ev :=
  Ev.shrink buf.base (if nread < 0 then 0 else nread.toNat) ::
  (if nread = 0 then []
   else if nread < 0 then
     [Ev.setErrno, Ev.notifyRecv [JsArg.sockRef sock]]
   else
     [Ev.notifyRecv [JsArg.sockRef sock, JsArg.buffer slabData,
                     JsArg.nat (buf.base - slabData),
                     JsArg.nat nread.toNat, JsArg.addr addr]])

/-- C9: a setMembership call with an absent interface argument (undefined
or null) passes the distinct "any/default interface" state (a null
pointer, modelled as none) to the OS primitive, never an empty string; a
present string argument is passed through as that string.  Holds for both
addMembership and dropMembership. -/
theorem setMembership_iface_optional (address : String) (r : Int) :
    ((AddMembership address JsVal.undefined r).1.iface = none) ∧
    ((AddMembership address JsVal.null r).1.iface = none) ∧
    ((DropMembership address JsVal.undefined r).1.iface = none) ∧
    ((DropMembership address JsVal.null r).1.iface = none) ∧
    (∀ s : String,
      (AddMembership address (JsVal.str s) r).1.iface = some s ∧
      (DropMembership address (JsVal.str s) r).1.iface = some s) := by
  refine ⟨rfl, rfl, rfl, rfl, fun s => ⟨rfl, rfl⟩⟩

/-- C6: a receive event with nread = 0 (a zero-length successful read)
delivers no receive notification to the application callback. -/
theorem recv_zero_no_notification (sock : Nat) (nread : Int) (buf : UvBuf)
    (slabData addr : Nat) (h : nread = 0) :
    (OnRecv sock nread buf slabData addr).countP isNotifyRecv = 0 := by
  subst h
  simp [OnRecv, isNotifyRecv, isShrink, List.countP_cons]

/-- Witness for recv_zero_no_notification at a concrete input. -/
theorem recv_zero_no_notification_witness :
    ((0 : Int) = 0) ∧
    (OnRecv 1 0 { base := 2, len := 3 } 2 4).countP isNotifyRecv = 0 :=
  ⟨rfl, recv_zero_no_notification 1 0 { base := 2, len := 3 } 2 4 rfl⟩

/-- C7: a receive event with nread < 0 delivers exactly one receive
notification, whose argument list is exactly the socket reference (so no
buffer region, no offset/length, no source address), and the translated
error is set (SetErrno) before the notification is delivered. -/
theorem recv_error_notification (sock : Nat) (nread : Int) (buf : UvBuf)
    (slabData addr : Nat) (h : nread < 0) :
    (OnRecv sock nread buf slabData addr).countP isNotifyRecv = 1 ∧
    (∀ args, Ev.notifyRecv args ∈ OnRecv sock nread buf slabData addr →
      args = [JsArg.sockRef sock]) ∧
    firstThen isSetErrno isNotifyRecv
      (OnRecv sock nread buf slabData addr) = true := by
  have h0 : ¬(nread = 0) := by omega
  refine ⟨?_, ?_, ?_⟩
  · simp [OnRecv, h, h0, isNotifyRecv, List.countP_cons]
  · intro args hmem
    simp [OnRecv, h, h0] at hmem
    exact hmem
  · simp [OnRecv, h, h0, firstThen, isSetErrno, isNotifyRecv, List.any]

/-- Witness for recv_error_notification at a concrete input. -/
theorem recv_error_notification_witness :
    ((-1 : Int) < 0) ∧
    ((OnRecv 1 (-1) { base := 2, len := 3 } 2 4).countP isNotifyRecv = 1 ∧
     (∀ args, Ev.notifyRecv args ∈ OnRecv 1 (-1) { base := 2, len := 3 } 2 4 →
       args = [JsArg.sockRef 1]) ∧
     firstThen isSetErrno isNotifyRecv
       (OnRecv 1 (-1) { base := 2, len := 3 } 2 4) = true) :=
  ⟨by decide,
   recv_error_notification 1 (-1) { base := 2, len := 3 } 2 4 (by decide)⟩

/-- C10: on every receive event, the region handed out by the preceding
allocation callback (base pointer p) is returned to the slab allocator via
Shrink exactly once, as the very first action of the handler (so before
any early return) — shrunk to 0 bytes when nread is zero or negative and
to exactly nread bytes on a successful read; and on a successful read the
notification reports offset p − slabData (the region's byte offset within
the parent slab buffer, since slabData + (p − slabData) = p) and length
nread. -/
theorem recv_shrinks_region_once (sock : Nat) (nread : Int)
    (p suggested slabData addr : Nat) (hp : slabData ≤ p) :
    (OnRecv sock nread (OnAlloc p suggested) slabData addr).countP
        isShrink = 1 ∧
    (OnRecv sock nread (OnAlloc p suggested) slabData addr).head? =
      some (Ev.shrink p (if nread < 0 then 0 else nread.toNat)) ∧
    (0 < nread →
      Ev.notifyRecv [JsArg.sockRef sock, JsArg.buffer slabData,
          JsArg.nat (p - slabData), JsArg.nat nread.toNat,
          JsArg.addr addr] ∈
        OnRecv sock nread (OnAlloc p suggested) slabData addr ∧
      slabData + (p - slabData) = p) := by
  refine ⟨?_, ?_, ?_⟩
  · rcases lt_trichotomy nread 0 with h | h | h
    · have h0 : ¬(nread = 0) := by omega
      simp [OnRecv, OnAlloc, h, h0, isShrink, isNotifyRecv, isSetErrno,
        List.countP_cons]
    · subst h
      simp [OnRecv, OnAlloc, isShrink, List.countP_cons]
    · have h0 : ¬(nread = 0) := by omega
      have h1 : ¬(nread < 0) := by omega
      simp [OnRecv, OnAlloc, h0, h1, isShrink, List.countP_cons]
  · simp [OnRecv, OnAlloc]
  · intro h
    have h0 : ¬(nread = 0) := by omega
    have h1 : ¬(nread < 0) := by omega
    refine ⟨?_, by omega⟩
    simp [OnRecv, OnAlloc, h0, h1]

/-- Witness for recv_shrinks_region_once at a concrete input. -/
theorem recv_shrinks_region_once_witness :
    (8 ≤ 10 ∧ (0 : Int) < 3) ∧
    ((OnRecv 1 3 (OnAlloc 10 4) 8 9).countP isShrink = 1 ∧
     (OnRecv 1 3 (OnAlloc 10 4) 8 9).head? =
       some (Ev.shrink 10 (if (3 : Int) < 0 then 0 else (3 : Int).toNat)) ∧
     ((0 : Int) < 3 →
       Ev.notifyRecv [JsArg.sockRef 1, JsArg.buffer 8, JsArg.nat (10 - 8),
           JsArg.nat (3 : Int).toNat, JsArg.addr 9] ∈
         OnRecv 1 3 (OnAlloc 10 4) 8 9 ∧
       8 + (10 - 8) = 10)) :=
  ⟨by decide, recv_shrinks_region_once 1 3 10 4 8 9 (by decide)⟩

/-- C2: once a socket is bound to family A, a bind call for a different
family B fails (nonzero return), records the bind-conflict error as the
last error, and leaves the socket's state — in particular its family-A
binding — unchanged. -/
theorem bind_family_immutable (s : SockState) (A B : Family)
    (hA : s.boundFamily = some A) (hAB : B ≠ A) :
    (DoBind s B).ret ≠ 0 ∧
    (DoBind s B).lastError = some UvErr.bindConflict ∧
    (DoBind s B).state = s := by
  have hu : uv_udp_bind s B = (s, -1, UvErr.bindConflict) := by
    simp [uv_udp_bind, hA, Ne.symm hAB]
  refine ⟨?_, ?_, ?_⟩ <;> simp [DoBind, hu]

/-- Witness for bind_family_immutable at a concrete input. -/
theorem bind_family_immutable_witness :
    (({ boundFamily := some Family.ipv4, recvArmed := false } :
        SockState).boundFamily = some Family.ipv4 ∧
      Family.ipv6 ≠ Family.ipv4) ∧
    ((DoBind { boundFamily := some Family.ipv4, recvArmed := false }
        Family.ipv6).ret ≠ 0 ∧
     (DoBind { boundFamily := some Family.ipv4, recvArmed := false }
        Family.ipv6).lastError = some UvErr.bindConflict ∧
     (DoBind { boundFamily := some Family.ipv4, recvArmed := false }
        Family.ipv6).state =
       { boundFamily := some Family.ipv4, recvArmed := false }) :=
  ⟨⟨rfl, by decide⟩,
   bind_family_immutable
     { boundFamily := some Family.ipv4, recvArmed := false }
     Family.ipv4 Family.ipv6 rfl (by decide)⟩

/-- C8: recvStart is idempotent.  A recvStart call returns success (True)
without setting the last error; a second recvStart without an intervening
recvStop leaves the socket state produced by the first call unchanged and
returns the same success result; and on a socket that is already armed
(the "already started" condition) recvStart reports success, does not set
the last error, and changes nothing. -/
theorem recvStart_idempotent (s : SockState) :
    (RecvStart s).2 = (true, false) ∧
    RecvStart (RecvStart s).1 = ((RecvStart s).1, true, false) ∧
    (s.recvArmed = true → RecvStart s = (s, true, false)) := by
  rcases s with ⟨bf, armed⟩
  cases armed <;>
    simp [RecvStart, uv_udp_recv_start, recvStartResult]

/-- Witness for recvStart_idempotent at a concrete input. -/
theorem recvStart_idempotent_witness :
    (({ boundFamily := none, recvArmed := true } : SockState).recvArmed =
      true) ∧
    ((RecvStart { boundFamily := none, recvArmed := true }).2 =
      (true, false) ∧
     RecvStart (RecvStart { boundFamily := none, recvArmed := true }).1 =
       ((RecvStart { boundFamily := none, recvArmed := true }).1, true,
        false) ∧
     (({ boundFamily := none, recvArmed := true } : SockState).recvArmed =
        true →
       RecvStart { boundFamily := none, recvArmed := true } =
         ({ boundFamily := none, recvArmed := true }, true, false))) :=
  ⟨rfl, recvStart_idempotent { boundFamily := none, recvArmed := true }⟩

/-- C3 counterexample: a send call violating the length constraint
(payload length 1, offset 0, length 2) is not surfaced to the caller as a
synchronous argument error — the assert at line 243 fails and the process
aborts (the none outcome), so the claim "the violation is surfaced ... as
an argument error to the caller, and the process is not terminated" is
false at this input. -/
theorem send_invalid_args_abort_cex : DoSend 1 0 2 7 3 0 = none := rfl

/-- C3 amended: a send call whose arguments violate offset < payload
length or length ≤ payload length − offset fails the corresponding assert
(lines 242-243) and aborts the process; no error result is returned to the
caller. -/
theorem send_invalid_args_abort (bufLen offset length payload reqId : Nat)
    (r : Int) (h : ¬(offset < bufLen ∧ length ≤ bufLen - offset)) :
    DoSend bufLen offset length payload reqId r = none := by
  simp [DoSend, h]

/-- Witness for send_invalid_args_abort at a concrete input. -/
theorem send_invalid_args_abort_witness :
    (¬(0 < 1 ∧ 2 ≤ 1 - 0)) ∧ DoSend 1 0 2 7 3 0 = none :=
  ⟨by decide, send_invalid_args_abort 1 0 2 7 3 0 (by decide)⟩

/-- C4 counterexample: recvStop returning a failure result (here the
primitive result −1 is handed back to JS unchanged) does not set the
process-wide last error — its embedded body never runs SetErrno — so the
claim that every listed operation sets the last error on failure is false
for recvStop. -/
theorem failing_ops_set_errno_cex :
    (RecvStop (-1)).1 ≠ 0 ∧ (RecvStop (-1)).2 = false := by decide

/-- C4 amended: every fallible operation of the wrapper except recvStop
(bind, send, setTTL, setBroadcast, setMulticastTTL, setMulticastLoopback,
addMembership, dropMembership, recvStart, getsockname) sets the
process-wide last error before returning whenever it returns a failure
result; recvStop returns the primitive's failure code without setting the
last error. -/
theorem failing_ops_set_errno (s : SockState) (fam : Family)
    (bufLen offset length payload reqId : Nat) (flag r : Int)
    (address : String) (iv : JsVal) (addr : Nat) :
    ((DoBind s fam).ret ≠ 0 → (DoBind s fam).lastError.isSome = true) ∧
    (∀ out req, DoSend bufLen offset length payload reqId r =
        some (out, req) → out.ret = none → out.errnoSet = true) ∧
    (r ≠ 0 → (SetTTL flag r).2 = true) ∧
    (r ≠ 0 → (SetBroadcast flag r).2 = true) ∧
    (r ≠ 0 → (SetMulticastTTL flag r).2 = true) ∧
    (r ≠ 0 → (SetMulticastLoopback flag r).2 = true) ∧
    (r ≠ 0 → (AddMembership address iv r).2.2 = true) ∧
    (r ≠ 0 → (DropMembership address iv r).2.2 = true) ∧
    (∀ code, (recvStartResult r code).1 = false →
      (recvStartResult r code).2 = true) ∧
    (r ≠ 0 → (GetSockName r addr).2 = true) ∧
    (RecvStop r).2 = false := by
  refine ⟨?_, ?_, ?_, ?_, ?_, ?_, ?_, ?_, ?_, ?_, rfl⟩
  · intro hr
    simp only [DoBind] at hr ⊢
    simp [hr]
  · intro out req hsome hnull
    by_cases hc : offset < bufLen ∧ length ≤ bufLen - offset
    · by_cases hr : r ≠ 0
      · simp [DoSend, hc, hr] at hsome
        simp [← hsome.1]
      · simp [DoSend, hc, hr] at hsome
        rw [← hsome.1] at hnull
        simp at hnull
    · simp [DoSend, hc] at hsome
  · intro hr; simp [SetTTL, hr]
  · intro hr; simp [SetBroadcast, hr]
  · intro hr; simp [SetMulticastTTL, hr]
  · intro hr; simp [SetMulticastLoopback, hr]
  · intro hr; simp [AddMembership, SetMembership, hr]
  · intro hr; simp [DropMembership, SetMembership, hr]
  · intro code hfail
    simp only [recvStartResult] at hfail ⊢
    by_cases hc : r ≠ 0 ∧ code ≠ UvErr.already
    · simp [hc]
    · simp [hc] at hfail
  · intro hr; simp [GetSockName, hr]

/-- Witness for failing_ops_set_errno at concrete inputs, discharging each
failure hypothesis. -/
theorem failing_ops_set_errno_witness :
    ((DoBind { boundFamily := some Family.ipv4, recvArmed := false }
        Family.ipv6).lastError.isSome = true) ∧
    (({ ret := none, errnoSet := true, reqDestroyedSync := true } :
        SendOut).errnoSet = true) ∧
    (SetTTL 0 (-1)).2 = true ∧
    (SetBroadcast 0 (-1)).2 = true ∧
    (SetMulticastTTL 0 (-1)).2 = true ∧
    (SetMulticastLoopback 0 (-1)).2 = true ∧
    (AddMembership "230.1.2.3" JsVal.undefined (-1)).2.2 = true ∧
    (DropMembership "230.1.2.3" JsVal.undefined (-1)).2.2 = true ∧
    (recvStartResult (-1) UvErr.ok).2 = true ∧
    (GetSockName (-1) 5).2 = true ∧
    (RecvStop (-1)).2 = false := by
  have h := failing_ops_set_errno
    { boundFamily := some Family.ipv4, recvArmed := false } Family.ipv6
    1 0 1 7 3 0 (-1) "230.1.2.3" JsVal.undefined 5
  exact ⟨h.1 (by decide),
    h.2.1 { ret := none, errnoSet := true, reqDestroyedSync := true }
      { id := 3, hiddenBuffer := 7 } (by decide) rfl,
    h.2.2.1 (by decide), h.2.2.2.1 (by decide), h.2.2.2.2.1 (by decide),
    h.2.2.2.2.2.1 (by decide), h.2.2.2.2.2.2.1 (by decide),
    h.2.2.2.2.2.2.2.1 (by decide),
    h.2.2.2.2.2.2.2.2.1 UvErr.ok (by decide),
    h.2.2.2.2.2.2.2.2.2.1 (by decide), h.2.2.2.2.2.2.2.2.2.2⟩

/-- C1 counterexample: the triple payload.size() = 0, offset = 0,
length = 0 is valid under the claim's condition offset + length ≤
payload.size(), yet the assert offset < Buffer::Length at line 242 fails
and the process aborts — send neither returns a handle with a later
completion nor fails synchronously returning null, so neither of the
claim's two outcomes occurs. -/
theorem send_exactly_one_outcome_cex : sendSession 0 0 0 7 3 1 0 0 = none :=
  rfl

/-- C1 amended: for every send call satisfying the code's asserted
constraints offset < payload.size() and length ≤ payload.size() − offset,
exactly one of two outcomes occurs: either send returns a request handle
and exactly one completion notification referencing the same payload
object is delivered, or send fails synchronously (returning null, the
Send Request destroyed) and no completion notification ever fires — never
both and never neither. -/
theorem send_exactly_one_outcome (bufLen offset length payload reqId sock :
    Nat) (r status : Int) (hoff : offset < bufLen)
    (hlen : length ≤ bufLen - offset) :
    ∃ s, sendSession bufLen offset length payload reqId sock r status =
        some s ∧
      Xor' ((∃ h, s.ret = some h) ∧ sendCompletions payload s.trace = 1)
        (s.ret = none ∧ s.reqDestroyedSync = true ∧
          sendCompletions payload s.trace = 0) := by
  by_cases hr : r = 0
  · subst hr
    refine ⟨{ ret := some reqId, errnoSet := false,
              reqDestroyedSync := false,
              trace := OnSend status sock
                { id := reqId, hiddenBuffer := payload } }, ?_, ?_⟩
    · simp [sendSession, DoSend, hoff, hlen, sendAsyncTrace]
    · refine Or.inl ⟨⟨⟨reqId, rfl⟩, ?_⟩, ?_⟩
      · by_cases hs : status = 0 <;>
          simp [OnSend, hs, sendCompletions, isSendCompletionFor,
            List.countP_cons, List.countP_append]
      · simp
  · refine ⟨{ ret := none, errnoSet := true, reqDestroyedSync := true,
              trace := [] }, ?_, ?_⟩
    · simp [sendSession, DoSend, hoff, hlen, hr, sendAsyncTrace]
    · exact Or.inr ⟨⟨rfl, rfl, rfl⟩, by simp⟩

/-- Witness for send_exactly_one_outcome at a concrete input. -/
theorem send_exactly_one_outcome_witness :
    (0 < 1 ∧ 1 ≤ 1 - 0) ∧
    (∃ s, sendSession 1 0 1 7 3 1 0 0 = some s ∧
      Xor' ((∃ h, s.ret = some h) ∧ sendCompletions 7 s.trace = 1)
        (s.ret = none ∧ s.reqDestroyedSync = true ∧
          sendCompletions 7 s.trace = 0)) :=
  ⟨by decide, send_exactly_one_outcome 1 0 1 7 3 1 0 0 (by decide)
    (by decide)⟩

/-- C5: for a send whose dispatch succeeded (so a completion is delivered),
the completion is delivered exactly once for the Send Request, its argument
list is exactly (status, socket reference, request reference, payload
reference) where the payload reference is the buffer object passed to
send, a nonzero status means the translated error was set (SetErrno)
before the callback was invoked, and the Send Request is destroyed
immediately after the completion is reported (the deletion follows the
callback and is the final action). -/
theorem send_completion_contract (bufLen offset length payload reqId sock :
    Nat) (status : Int) (hoff : offset < bufLen)
    (hlen : length ≤ bufLen - offset) :
    ∀ sess, sendSession bufLen offset length payload reqId sock 0 status =
        some sess →
      sess.trace.countP isNotifySend = 1 ∧
      (∀ args, Ev.notifySend args ∈ sess.trace →
        args = [JsArg.int status, JsArg.sockRef sock, JsArg.reqRef reqId,
                JsArg.buffer payload]) ∧
      (status ≠ 0 → firstThen isSetErrno isNotifySend sess.trace = true) ∧
      firstThen isNotifySend (isDeleteReqFor reqId) sess.trace = true ∧
      sess.trace.getLast? = some (Ev.deleteReq reqId) := by
  intro sess hsess
  simp [sendSession, DoSend, hoff, hlen, sendAsyncTrace] at hsess
  subst hsess
  by_cases hs : status = 0
  · subst hs
    refine ⟨?_, ?_, ?_, ?_, ?_⟩
    · simp [OnSend, isNotifySend, List.countP_cons, List.countP_append]
    · intro args hmem
      simp [OnSend] at hmem
      exact hmem
    · intro hcontra
      exact absurd rfl hcontra
    · simp [OnSend, firstThen, isNotifySend, isDeleteReqFor, List.any]
    · simp [OnSend]
  · refine ⟨?_, ?_, ?_, ?_, ?_⟩
    · simp [OnSend, hs, isNotifySend, List.countP_cons, List.countP_append]
    · intro args hmem
      simp [OnSend, hs] at hmem
      exact hmem
    · intro _
      simp [OnSend, hs, firstThen, isSetErrno, isNotifySend, List.any]
    · simp [OnSend, hs, firstThen, isNotifySend, isDeleteReqFor, List.any]
    · simp [OnSend, hs]

/-- Witness for send_completion_contract at a concrete input. -/
theorem send_completion_contract_witness :
    (0 < 1 ∧ 1 ≤ 1 - 0) ∧
    (({ ret := some 3, errnoSet := false, reqDestroyedSync := false,
        trace := [Ev.setErrno,
          Ev.notifySend [JsArg.int (-1), JsArg.sockRef 1, JsArg.reqRef 3,
            JsArg.buffer 7], Ev.deleteReq 3] } :
          SendSession).trace.countP isNotifySend = 1 ∧
     (∀ args, Ev.notifySend args ∈
         ({ ret := some 3, errnoSet := false, reqDestroyedSync := false,
            trace := [Ev.setErrno,
              Ev.notifySend [JsArg.int (-1), JsArg.sockRef 1,
                JsArg.reqRef 3, JsArg.buffer 7], Ev.deleteReq 3] } :
              SendSession).trace →
       args = [JsArg.int (-1), JsArg.sockRef 1, JsArg.reqRef 3,
               JsArg.buffer 7]) ∧
     ((-1 : Int) ≠ 0 → firstThen isSetErrno isNotifySend
         ({ ret := some 3, errnoSet := false, reqDestroyedSync := false,
            trace := [Ev.setErrno,
              Ev.notifySend [JsArg.int (-1), JsArg.sockRef 1,
                JsArg.reqRef 3, JsArg.buffer 7], Ev.deleteReq 3] } :
              SendSession).trace = true) ∧
     firstThen isNotifySend (isDeleteReqFor 3)
       ({ ret := some 3, errnoSet := false, reqDestroyedSync := false,
          trace := [Ev.setErrno,
            Ev.notifySend [JsArg.int (-1), JsArg.sockRef 1, JsArg.reqRef 3,
              JsArg.buffer 7], Ev.deleteReq 3] } :
            SendSession).trace = true ∧
     ({ ret := some 3, errnoSet := false, reqDestroyedSync := false,
        trace := [Ev.setErrno,
          Ev.notifySend [JsArg.int (-1), JsArg.sockRef 1, JsArg.reqRef 3,
            JsArg.buffer 7], Ev.deleteReq 3] } :
          SendSession).trace.getLast? = some (Ev.deleteReq 3)) :=
  ⟨by decide,
   send_completion_contract 1 0 1 7 3 1 (-1) (by decide) (by decide)
     { ret := some 3, errnoSet := false, reqDestroyedSync := false,
       trace := [Ev.setErrno,
         Ev.notifySend [JsArg.int (-1), JsArg.sockRef 1, JsArg.reqRef 3,
           JsArg.buffer 7], Ev.deleteReq 3] } rfl⟩

end UdpWrap
